import Mathlib

/-!
# Shallow embedding of the expense-api backend

This file embeds the route handlers of the expense-tracker backend
(`src/app.ts` and the companion auth variant) as executable Lean
definitions and proves the specified properties about them.

Modelling conventions:
* Request-body values are JavaScript values; the handlers test field
  presence by JS truthiness, so we model the relevant fragment of JS
  values (`undefined`, numbers, strings) together with truthiness.
* The MongoDB collections are modelled as in-memory lists together with
  a fresh-id counter; `insertOne` / `updateOne` / `deleteOne` / `find` /
  `findOne` are given their documented semantics on that state.
* `dateTime` values are stored as ISO-8601 UTC strings in the code and
  compared with `$gte`/`$lt`; fixed-width ISO-8601 UTC strings compare
  lexicographically exactly as their timestamps, so we represent them by
  integer milliseconds since the Unix epoch (server clock taken as UTC).
* JWTs are modelled as a signed record (subject id, expiry in seconds,
  MAC over payload); the wire format handled by the middleware is
  `id.exp.sig` with an idealised injective MAC.
-/

namespace ExpenseApi

/-! ## JavaScript values and truthiness -/

/-- The fragment of JavaScript values the handlers branch on:
`undefined`, numbers and strings. -/
inductive JsVal where
  | undef : JsVal
  | num : Int → JsVal
  | str : String → JsVal
deriving DecidableEq, Repr

/-- JavaScript truthiness on the modelled fragment: `undefined`, `0` and
`""` are falsy, every other number or string is truthy. -/
def truthy : JsVal → Bool
  | .undef => false
  | .num n => n != 0
  | .str s => s != ""

/-! ## Expense CRUD (`src/app.ts`) -/

/-- The destructured expense request body of `POST /api/add` and
`PUT /api/edit/:id`: `{ userId, dateTime, amount, type, category, title,
currency, note }`. -/
structure ExpenseBody where
  userId : JsVal
  dateTime : JsVal
  amount : JsVal
  type : JsVal
  category : JsVal
  title : JsVal
  currency : JsVal
  note : JsVal
deriving DecidableEq, Repr

/-- The mandatory-field check of `POST /api/add` and `PUT /api/edit/:id`:
`if (!userId || !dateTime || !amount || !type || !category || !title ||
!currency)` — all seven fields must be truthy (`note` is optional). -/
def requiredPresent (b : ExpenseBody) : Bool :=
  truthy b.userId && truthy b.dateTime && truthy b.amount && truthy b.type &&
    truthy b.category && truthy b.title && truthy b.currency

/-- State of the `expense-tracker` collection: stored documents keyed by
their generated `_id`, plus the store's fresh-id counter. -/
structure LedgerState where
  nextId : Nat
  docs : List (Nat × ExpenseBody)
deriving DecidableEq, Repr

/-- An HTTP-level outcome: status code and response message. -/
structure ApiResponse where
  status : Nat
  message : String
deriving DecidableEq, Repr

/-- `POST /api/add`: reject with 400 `"All required fields must be
filled"` if any mandatory field is falsy; otherwise `insertOne` the new
transaction (the store generates a fresh id) and answer 201. -/
def addExpense (b : ExpenseBody) (st : LedgerState) : ApiResponse × LedgerState :=
  if !requiredPresent b then
    (⟨400, "All required fields must be filled"⟩, st)
  else
    (⟨201, ""⟩, ⟨st.nextId + 1, st.docs ++ [(st.nextId, b)]⟩)

/-- `updateOne {_id: id} {$set: body}` on the collection: replaces the
fields of the first document whose `_id` matches, returning Mongo's
`matchedCount` together with the updated collection. -/
def updateOne (id : Nat) (b : ExpenseBody) :
    List (Nat × ExpenseBody) → Nat × List (Nat × ExpenseBody)
  | [] => (0, [])
  | (i, d) :: rest =>
    if i = id then (1, (i, b) :: rest)
    else
      let r := updateOne id b rest
      (r.1, (i, d) :: r.2)

/-- `PUT /api/edit/:id`: same mandatory-field validation as add (400 and
no persistence call on failure); otherwise `updateOne` by id, answering
404 `"Transaction not found"` when `matchedCount === 0` and 200 on a
match. -/
def editExpense (id : Nat) (b : ExpenseBody) (st : LedgerState) :
    ApiResponse × LedgerState :=
  if !requiredPresent b then
    (⟨400, "All required fields must be filled"⟩, st)
  else
    let r := updateOne id b st.docs
    if r.1 = 0 then (⟨404, "Transaction not found"⟩, ⟨st.nextId, r.2⟩)
    else (⟨200, ""⟩, ⟨st.nextId, r.2⟩)

/-- `deleteOne {_id: id}`: removes the first document whose `_id`
matches, if any. -/
def deleteOne (id : Nat) : List (Nat × ExpenseBody) → List (Nat × ExpenseBody)
  | [] => []
  | (i, d) :: rest => if i = id then rest else (i, d) :: deleteOne id rest

/-- `DELETE /api/remove/:id`: `deleteOne` by id and answer 200
`"Expense deleted successfully"` unconditionally — the handler never
inspects `deletedCount`. -/
def removeExpense (id : Nat) (st : LedgerState) : ApiResponse × LedgerState :=
  (⟨200, "Expense deleted successfully"⟩, ⟨st.nextId, deleteOne id st.docs⟩)

/-! ## Query engine (`POST /api/expenses`) -/

/-- A stored expense document as consulted by the list endpoint.
`dateTime` is the timestamp of the stored ISO-8601 UTC string (see the
header comment); the remaining fields are payload the query never
inspects. -/
structure QExpense where
  userId : String
  dateTime : Int
  amount : Int
  type : String
  category : String
  title : String
  currency : String
  note : String
deriving DecidableEq, Repr

/-- The `$gte`/`$lt` pair placed on `dateTime` by the month/year filter:
inclusive lower bound, exclusive upper bound. -/
structure DateWindow where
  gte : Int
  lt : Int
deriving DecidableEq, Repr

/-- The Mongo filter built by `POST /api/expenses`: mandatory `userId`
equality, optional `dateTime` window. -/
structure ExpenseQuery where
  userId : String
  window : Option DateWindow
deriving DecidableEq, Repr

/-- Days from the Unix epoch to the civil UTC date `year-month-day`
(proleptic Gregorian, CE years), the standard days-from-civil
computation used to interpret `new Date("YYYY-MM-DDT00:00:00Z")`. -/
def daysFromCivil (year month day : Nat) : Int :=
  let y : Int := if month ≤ 2 then (year : Int) - 1 else (year : Int)
  let era : Int := y / 400
  let yoe : Int := y - era * 400
  let mp : Int := if month ≤ 2 then (month : Int) + 9 else (month : Int) - 3
  let doy : Int := (153 * mp + 2) / 5 + (day : Int) - 1
  let doe : Int := yoe * 365 + yoe / 4 - yoe / 100 + doy
  era * 146097 + doe - 719468

/-- Milliseconds per day. -/
def msPerDay : Int := 86400000

/-- The timestamp of `` new Date(`${year}-${month}-01T00:00:00Z`) ``:
the first instant of the given month, UTC. -/
def firstOfMonthMs (year month : Nat) : Int :=
  daysFromCivil year month 1 * msPerDay

/-- Filter construction of `POST /api/expenses`: `{ userId }`, plus —
when both `month` and `year` are supplied — a `dateTime` window from the
first instant of the month (`startDate`) to
`endDate = startDate + 31 days` (`endDate.setDate(startDate.getDate() + 31)`
applied to the first of the month), sent as `$gte: startDate, $lt: endDate`. -/
def buildExpenseQuery (userId : String) (month year : Option Nat) : ExpenseQuery :=
  match month, year with
  | some m, some y =>
    let startDate := firstOfMonthMs y m
    let endDate := startDate + 31 * msPerDay
    ⟨userId, some ⟨startDate, endDate⟩⟩
  | _, _ => ⟨userId, none⟩

/-- Whether a stored document matches the built filter: `userId`
equality and, when present, `$gte ≤ dateTime < $lt`. -/
def matchesQuery (q : ExpenseQuery) (e : QExpense) : Bool :=
  e.userId == q.userId &&
    match q.window with
    | none => true
    | some w => w.gte ≤ e.dateTime && e.dateTime < w.lt

/-- The `.sort({ dateTime: -1 })` comparator: descending by `dateTime`. -/
def dateTimeDesc (a b : QExpense) : Bool :=
  b.dateTime ≤ a.dateTime

/-- `POST /api/expenses` as present in `src/app.ts`: build the filter,
`find`, sort descending by `dateTime`, return the bare array. -/
def listExpenses (userId : String) (month year : Option Nat)
    (store : List QExpense) : List QExpense :=
  ((store.filter (matchesQuery (buildExpenseQuery userId month year))).mergeSort
    dateTimeDesc)

/-- The envelope returned by the paginated list variant:
`{items, page, totalPages, totalItems}`. -/
structure PageResult where
  items : List QExpense
  page : Nat
  totalPages : Nat
  totalItems : Nat
deriving DecidableEq, Repr

/-- Modelled from the spec: the paginated/sorted list variant of the
Query Engine (spec §4.5 and the §6 envelope form) is not among the
source files present in `src/`. Per the spec it builds the same
owner-scoped filter, sorts by a caller-chosen comparator (defaulting to
descending `dateTime`), and combines `page` (default 1, 1-indexed) and
`limit` (default 10) into a skip offset `(page - 1) * limit`, returning
the requested slice, the total matching count, and the derived total
page count `ceil(total / limit)`. -/
def queryEnginePage (userId : String) (month year : Option Nat)
    (page limit : Option Nat) (sortLe : QExpense → QExpense → Bool)
    (store : List QExpense) : PageResult :=
  let p := page.getD 1
  let l := limit.getD 10
  let matched := store.filter (matchesQuery (buildExpenseQuery userId month year))
  let sorted := matched.mergeSort sortLe
  let total := sorted.length
  let skip := (p - 1) * l
  ⟨(sorted.drop skip).take l, p, (total + l - 1) / l, total⟩

/-! ## Token service and auth middleware (auth variant / `part_000`) -/

/-- A signed JWT as a record: subject id, expiry (seconds since epoch),
and the signature over the payload. The base64 wire format is idealised
as `id.exp.sig` (see `decodeToken`). -/
structure Token where
  id : String
  exp : Nat
  sig : String
deriving DecidableEq, Repr

/-- Idealised message-authentication code over the token payload with
the server-held secret: injective in secret, subject and expiry. -/
def mac (secret id : String) (exp : Nat) : String :=
  String.intercalate "|" [secret, id, toString exp]

/-- `jwt.sign({ id: userId }, secret, { expiresIn: "1h" })` at time
`now`: expiry is issue time plus the configured TTL of 3600 seconds. -/
def jwtTtlSeconds : Nat := 3600

/-- `generateToken` (the code's token issuer): sign `{id: userId}` with
the secret, expiring `jwtTtlSeconds` after `now`. -/
def generateToken (userId secret : String) (now : Nat) : Token :=
  ⟨userId, now + jwtTtlSeconds, mac secret userId (now + jwtTtlSeconds)⟩

/-- JavaScript `String.prototype.split` with a one-character separator,
on the character list of the string: splits at every occurrence of the
separator, keeping empty segments (`"".split(" ") = [""]`,
`"a ".split(" ") = ["a", ""]`). -/
def splitChar (c : Char) : List Char → List (List Char)
  | [] => [[]]
  | x :: xs =>
    let r := splitChar c xs
    if x = c then [] :: r
    else
      match r with
      | [] => [[x]]
      | s :: rest => (x :: s) :: rest

/-- The numeric value of a decimal digit character, if it is one. -/
def digitVal? (c : Char) : Option Nat :=
  if 48 ≤ c.toNat ∧ c.toNat ≤ 57 then some (c.toNat - 48) else none

/-- Parse a non-empty all-digit character list as a decimal number. -/
def parseNat? (cs : List Char) : Option Nat :=
  match cs with
  | [] => none
  | _ => cs.foldlM (fun acc c => (digitVal? c).map fun d => acc * 10 + d) 0

/-- Parse the idealised `id.exp.sig` wire format of a presented token
string. -/
def decodeToken (s : String) : Option Token :=
  match splitChar '.' s.data with
  | [i, e, g] => (parseNat? e).map fun n => ⟨String.mk i, n, String.mk g⟩
  | _ => none

/-- `jwt.verify` on a decoded token: succeeds with the subject id only
when the signature matches the secret and the expiry has not elapsed
(jsonwebtoken rejects with `TokenExpiredError` once `now ≥ exp`). -/
def jwtVerifyTok (t : Token) (secret : String) (now : Nat) : Option String :=
  if t.sig == mac secret t.id t.exp && now < t.exp then some t.id else none

/-- `jwt.verify` on the presented token string: decode, then check
signature and expiry. -/
def jwtVerifyStr (s : String) (secret : String) (now : Nat) : Option String :=
  (decodeToken s).bind fun t => jwtVerifyTok t secret now

/-- `const token = authHeader && authHeader.split(" ")[1]`: the token is
the substring after the first space of the Authorization header, when
the header is present and has such a substring. -/
def extractToken (authHeader : Option String) : Option String :=
  authHeader.bind fun h => ((splitChar ' ' h.data).map String.mk).get? 1

/-- Outcome of the auth middleware: short-circuit with a status, or
bind the verified subject id into the request context and run the
downstream handler. -/
inductive AuthOutcome where
  | reject : Nat → AuthOutcome
  | proceed : String → AuthOutcome
deriving DecidableEq, Repr

/-- `authenticateToken`: extract the bearer token (`!token` — absent or
empty — answers 401); `jwt.verify` it (failure answers 403); on success
attach `user.id` to the request and call `next()`. -/
def authenticateToken (authHeader : Option String) (secret : String)
    (now : Nat) : AuthOutcome :=
  match extractToken authHeader with
  | none => .reject 401
  | some t =>
    if t = "" then .reject 401
    else
      match jwtVerifyStr t secret now with
      | none => .reject 403
      | some uid => .proceed uid

/-! ## Credential store, signup and current-user lookup -/

/-- A stored user document: generated `_id` (as its hex string), email,
and the bcrypt password hash. -/
structure UserRec where
  id : String
  email : String
  password : String
deriving DecidableEq, Repr

/-- State of the `users` collection, with the store's fresh-id counter
(the hex string of the counter is the next generated `_id`). -/
structure UsersState where
  nextId : Nat
  users : List UserRec
deriving DecidableEq, Repr

/-- `bcrypt.hash(password, 10)` idealised: an opaque one-way tag of the
cost factor and the plaintext. -/
def bcryptHash (cost : Nat) (password : String) : String :=
  String.intercalate "$" ["bcrypt", toString cost, password]

/-- Modelled from the spec: email uniqueness is "enforced at write time
(insertion must fail or be rejected by the store on duplicate)" — the
index declaration lives in the store, outside the source files present.
`insertOne` on the users collection signals a duplicate-unique-field
error when the email already exists, and otherwise appends the document
under a fresh generated id. -/
def usersInsertOne (email passwordHash : String) (st : UsersState) :
    Except Unit (String × UsersState) :=
  if st.users.any fun u => u.email == email then .error ()
  else
    .ok (toString st.nextId,
      ⟨st.nextId + 1, st.users ++ [⟨toString st.nextId, email, passwordHash⟩]⟩)

/-- Result of `POST /api/signup`: status and, on success, the issued
token. -/
structure SignupResult where
  status : Nat
  token : Option Token
deriving DecidableEq, Repr

/-- `POST /api/signup`: reject 400 when email or password is falsy;
otherwise hash the password, `insertOne` the new user, and on
persistence success issue a token for the new user id and answer 201 —
any persistence error is caught and answered as a generic 500. -/
def signup (email password secret : String) (now : Nat) (st : UsersState) :
    SignupResult × UsersState :=
  if email = "" || password = "" then (⟨400, none⟩, st)
  else
    match usersInsertOne email (bcryptHash 10 password) st with
    | .error _ => (⟨500, none⟩, st)
    | .ok (newId, st2) => (⟨201, some (generateToken newId secret now)⟩, st2)

/-- `findOne {_id: new ObjectId(subj)}` on the users collection. -/
def findUserById (subj : String) (st : UsersState) : Option UserRec :=
  st.users.find? fun u => u.id == subj

/-- The driver's document view of a stored user record, as the field
list the response would serialise. -/
def userDocOf (u : UserRec) : List (String × String) :=
  [("_id", u.id), ("email", u.email), ("password", u.password)]

/-- `GET /api/current`:
`findOne({_id: new ObjectId(req.user.id)}, {projection: {password: 0}})`
— the matching document with the `password` field projected out. -/
def currentUser (subj : String) (st : UsersState) :
    Option (List (String × String)) :=
  (st.users.find? fun u => u.id == subj).map fun u =>
    (userDocOf u).filter fun kv => kv.1 != "password"

/-! ## Helper lemmas -/

theorem updateOne_eq_of_not_mem (id : Nat) (b : ExpenseBody) :
    ∀ docs : List (Nat × ExpenseBody), (∀ p ∈ docs, p.1 ≠ id) →
      updateOne id b docs = (0, docs)
  | [], _ => rfl
  | (i, d) :: rest, h => by
    have hi : i ≠ id := h (i, d) (List.mem_cons_self _ _)
    have hrest := updateOne_eq_of_not_mem id b rest fun p hp =>
      h p (List.mem_cons_of_mem _ hp)
    simp [updateOne, hi, hrest]

theorem deleteOne_eq_of_not_mem (id : Nat) :
    ∀ docs : List (Nat × ExpenseBody), (∀ p ∈ docs, p.1 ≠ id) →
      deleteOne id docs = docs
  | [], _ => rfl
  | (i, d) :: rest, h => by
    have hi : i ≠ id := h (i, d) (List.mem_cons_self _ _)
    have hrest := deleteOne_eq_of_not_mem id rest fun p hp =>
      h p (List.mem_cons_of_mem _ hp)
    simp [deleteOne, hi, hrest]

theorem buildExpenseQuery_userId (userId : String) (month year : Option Nat) :
    (buildExpenseQuery userId month year).userId = userId := by
  cases month <;> cases year <;> rfl

theorem matchesQuery_userId {q : ExpenseQuery} {e : QExpense}
    (h : matchesQuery q e = true) : e.userId = q.userId := by
  unfold matchesQuery at h
  exact eq_of_beq (Bool.and_eq_true_iff.mp h).1

theorem ceilDiv_bounds (T l : Nat) (hl : 1 ≤ l) :
    T ≤ l * ((T + l - 1) / l) ∧ l * ((T + l - 1) / l) < T + l := by
  have h := Nat.div_add_mod (T + l - 1) l
  have h2 : (T + l - 1) % l < l := Nat.mod_lt _ (by omega)
  generalize hm : (T + l - 1) % l = m at h h2
  generalize hx : l * ((T + l - 1) / l) = x at h ⊢
  omega

theorem lastPage_length (T l d : Nat) (hd : 1 ≤ d)
    (h1 : T ≤ l * d) (h2 : l * d < T + l) :
    min l (T - (d - 1) * l) = T - l * (d - 1) := by
  obtain ⟨e, rfl⟩ : ∃ e, d = e + 1 := ⟨d - 1, by omega⟩
  simp only [Nat.add_sub_cancel]
  rw [Nat.mul_comm e l]
  have h3 : l * (e + 1) = l * e + l := by ring
  rw [h3] at h1 h2
  generalize l * e = y at h1 h2 ⊢
  omega

theorem lastPage_length_dvd (T l d : Nat) (hd : 1 ≤ d)
    (h1 : T ≤ l * d) (h2 : l * d < T + l) (hdvd : T % l = 0) :
    min l (T - (d - 1) * l) = l := by
  have h3 : l ∣ T := Nat.dvd_of_mod_eq_zero hdvd
  have h5 : l ∣ l * d - T := Nat.dvd_sub' (Dvd.intro d rfl) h3
  have hx : l * d = T := by
    generalize hy : l * d = y at h1 h2 h5
    have h6 : y - T < l := by omega
    have h7 := Nat.eq_zero_of_dvd_of_lt h5 h6
    omega
  obtain ⟨e, rfl⟩ : ∃ e, d = e + 1 := ⟨d - 1, by omega⟩
  simp only [Nat.add_sub_cancel]
  rw [Nat.mul_comm e l]
  have h4 : l * (e + 1) = l * e + l := by ring
  rw [h4] at hx
  generalize l * e = y at hx ⊢
  omega

/-! ## Claim theorems -/

/-- C1: every expense returned by the list operation for a given
`userId` scope has that `userId` as owner, for any month/year filter,
any sort comparator and any page/limit combination — both for the bare
list endpoint in the source and for the paginated variant. -/
theorem listExpenses_owner_scoped (userId : String) (month year : Option Nat)
    (page limit : Option Nat) (sortLe : QExpense → QExpense → Bool)
    (store : List QExpense) :
    (∀ e ∈ listExpenses userId month year store, e.userId = userId) ∧
    (∀ e ∈ (queryEnginePage userId month year page limit sortLe store).items,
      e.userId = userId) := by
  have key : ∀ e ∈ store.filter (matchesQuery (buildExpenseQuery userId month year)),
      e.userId = userId := by
    intro e he
    have hm := (List.mem_filter.mp he).2
    have h := matchesQuery_userId hm
    rwa [buildExpenseQuery_userId] at h
  constructor
  · intro e he
    unfold listExpenses at he
    exact key e (List.mem_mergeSort.mp he)
  · intro e he
    simp only [queryEnginePage] at he
    exact key e (List.mem_mergeSort.mp
      (List.mem_of_mem_drop (List.mem_of_mem_take he)))

/-- C1 witness: with a store holding one record of user A and one of
user B, A's record is returned by A's listing and carries owner A. -/
theorem listExpenses_owner_scoped_witness :
    (⟨"A", 5, 1, "expense", "food", "lunch", "USD", ""⟩ : QExpense) ∈
      listExpenses "A" none none
        [⟨"A", 5, 1, "expense", "food", "lunch", "USD", ""⟩,
          ⟨"B", 9, 2, "expense", "food", "dinner", "USD", ""⟩] ∧
    (⟨"A", 5, 1, "expense", "food", "lunch", "USD", ""⟩ : QExpense).userId = "A" := by
  have hmem : (⟨"A", 5, 1, "expense", "food", "lunch", "USD", ""⟩ : QExpense) ∈
      listExpenses "A" none none
        [⟨"A", 5, 1, "expense", "food", "lunch", "USD", ""⟩,
          ⟨"B", 9, 2, "expense", "food", "dinner", "USD", ""⟩] := by
    unfold listExpenses
    exact List.mem_mergeSort.mpr
      (List.mem_filter.mpr ⟨List.mem_cons_self _ _, by decide⟩)
  exact ⟨hmem,
    (listExpenses_owner_scoped "A" none none none none dateTimeDesc
      [⟨"A", 5, 1, "expense", "food", "lunch", "USD", ""⟩,
        ⟨"B", 9, 2, "expense", "food", "dinner", "USD", ""⟩]).1 _ hmem⟩

/-- C4: when both month and year are supplied to the expense-list
operation, the `dateTime` filter is an inclusive-from / exclusive-to
window whose lower bound is the first instant of that month and whose
upper bound is exactly 31 days after the lower bound; a record with
`dateTime` equal to the lower bound matches and a record with `dateTime`
equal to the upper bound does not. -/
theorem monthWindow_31days (userId : String) (month year : Nat) (e : QExpense)
    (hu : e.userId = userId) :
    ∃ w : DateWindow,
      (buildExpenseQuery userId (some month) (some year)).window = some w ∧
      w.gte = firstOfMonthMs year month ∧
      w.lt = w.gte + 31 * msPerDay ∧
      (matchesQuery (buildExpenseQuery userId (some month) (some year)) e = true ↔
        w.gte ≤ e.dateTime ∧ e.dateTime < w.lt) ∧
      (e.dateTime = w.gte ∧ e.dateTime < w.lt →
        matchesQuery (buildExpenseQuery userId (some month) (some year)) e = true) ∧
      (e.dateTime = w.lt →
        matchesQuery (buildExpenseQuery userId (some month) (some year)) e = false) := by
  refine ⟨⟨firstOfMonthMs year month, firstOfMonthMs year month + 31 * msPerDay⟩,
    rfl, rfl, rfl, ?_, ?_, ?_⟩
  · simp [matchesQuery, buildExpenseQuery, hu]
  · rintro ⟨h1, h2⟩
    simp [matchesQuery, buildExpenseQuery, hu, h1] at h2 ⊢
    omega
  · intro h1
    simp [matchesQuery, buildExpenseQuery, hu, h1]

/-- C4 witness: for March 2024 the window starts at the first instant of
the month and a record dated exactly there is included. -/
theorem monthWindow_31days_witness :
    ∃ w : DateWindow,
      (buildExpenseQuery "A" (some 3) (some 2024)).window = some w ∧
      w.gte = firstOfMonthMs 2024 3 ∧
      w.lt = w.gte + 31 * msPerDay ∧
      (matchesQuery (buildExpenseQuery "A" (some 3) (some 2024))
          ⟨"A", 1709251200000, 50, "expense", "food", "lunch", "USD", ""⟩ = true ↔
        w.gte ≤ 1709251200000 ∧ (1709251200000 : Int) < w.lt) ∧
      ((1709251200000 : Int) = w.gte ∧ (1709251200000 : Int) < w.lt →
        matchesQuery (buildExpenseQuery "A" (some 3) (some 2024))
          ⟨"A", 1709251200000, 50, "expense", "food", "lunch", "USD", ""⟩ = true) ∧
      ((1709251200000 : Int) = w.lt →
        matchesQuery (buildExpenseQuery "A" (some 3) (some 2024))
          ⟨"A", 1709251200000, 50, "expense", "food", "lunch", "USD", ""⟩ = false) :=
  monthWindow_31days "A" 3 2024
    ⟨"A", 1709251200000, 50, "expense", "food", "lunch", "USD", ""⟩ rfl

/-- C6: the current-identity lookup always returns the user document
with the password hash field projected out, for every subject id and
every state of the users collection. -/
theorem currentUser_excludes_password (subj : String) (st : UsersState) :
    ((currentUser subj st).all fun doc => (doc.lookup "password").isNone) = true := by
  unfold currentUser
  cases h : st.users.find? fun u => u.id == subj with
  | none => rfl
  | some u => simp [userDocOf, List.lookup]

/-- C7: editing with a missing mandatory field answers 400 with the
validation message and leaves storage untouched; editing with all
mandatory fields present but an id matching no record answers 404, a
signal distinct from the 400 validation failure and the 500 internal
failure. -/
theorem editExpense_error_signals (id : Nat) (b : ExpenseBody) (st : LedgerState) :
    (requiredPresent b = false →
      editExpense id b st = (⟨400, "All required fields must be filled"⟩, st)) ∧
    (requiredPresent b = true → (∀ p ∈ st.docs, p.1 ≠ id) →
      editExpense id b st = (⟨404, "Transaction not found"⟩, st)) := by
  constructor
  · intro h
    simp [editExpense, h]
  · intro h hnm
    have hu := updateOne_eq_of_not_mem id b st.docs hnm
    simp [editExpense, h, hu]

/-- C7 witness: editing id 5 in a one-record store holding only id 0 —
a fully-filled body answers 404 with the store unchanged (not-found
path), and the same body with `title` missing answers 400 with the
store unchanged (validation path). -/
theorem editExpense_error_signals_witness :
    requiredPresent ⟨.str "u1", .str "2024-03-01T00:00:00Z", .num 50, .str "expense",
        .str "food", .str "lunch", .str "USD", .undef⟩ = true ∧
    editExpense 5 ⟨.str "u1", .str "2024-03-01T00:00:00Z", .num 50, .str "expense",
        .str "food", .str "lunch", .str "USD", .undef⟩ ⟨1, [(0, ⟨.str "u1", .str "d",
        .num 1, .str "t", .str "c", .str "ti", .str "USD", .undef⟩)]⟩ =
      (⟨404, "Transaction not found"⟩, ⟨1, [(0, ⟨.str "u1", .str "d", .num 1, .str "t",
        .str "c", .str "ti", .str "USD", .undef⟩)]⟩) ∧
    requiredPresent ⟨.str "u1", .str "2024-03-01T00:00:00Z", .num 50, .str "expense",
        .str "food", .undef, .str "USD", .undef⟩ = false ∧
    editExpense 5 ⟨.str "u1", .str "2024-03-01T00:00:00Z", .num 50, .str "expense",
        .str "food", .undef, .str "USD", .undef⟩ ⟨1, [(0, ⟨.str "u1", .str "d", .num 1,
        .str "t", .str "c", .str "ti", .str "USD", .undef⟩)]⟩ =
      (⟨400, "All required fields must be filled"⟩, ⟨1, [(0, ⟨.str "u1", .str "d",
        .num 1, .str "t", .str "c", .str "ti", .str "USD", .undef⟩)]⟩) :=
  ⟨by decide,
    (editExpense_error_signals 5 ⟨.str "u1", .str "2024-03-01T00:00:00Z", .num 50,
      .str "expense", .str "food", .str "lunch", .str "USD", .undef⟩
      ⟨1, [(0, ⟨.str "u1", .str "d", .num 1, .str "t", .str "c", .str "ti", .str "USD",
        .undef⟩)]⟩).2 (by decide) (by decide),
    by decide,
    (editExpense_error_signals 5 ⟨.str "u1", .str "2024-03-01T00:00:00Z", .num 50,
      .str "expense", .str "food", .undef, .str "USD", .undef⟩
      ⟨1, [(0, ⟨.str "u1", .str "d", .num 1, .str "t", .str "c", .str "ti", .str "USD",
        .undef⟩)]⟩).1 (by decide)⟩

/-- C9: delete-by-id always answers 200, deleting an id matching no
record leaves the store unchanged, and deleting the same id twice
produces the identical successful response both times. -/
theorem removeExpense_idempotent (id : Nat) (st : LedgerState) :
    (removeExpense id st).1 = ⟨200, "Expense deleted successfully"⟩ ∧
    ((∀ p ∈ st.docs, p.1 ≠ id) → (removeExpense id st).2 = st) ∧
    (removeExpense id (removeExpense id st).2).1 = (removeExpense id st).1 := by
  refine ⟨rfl, ?_, rfl⟩
  intro h
  simp [removeExpense, deleteOne_eq_of_not_mem id st.docs h]

/-- C9 witness: deleting the absent id 7 from a one-record store answers
200 and leaves the store unchanged; the repeated delete answers the
same. -/
theorem removeExpense_idempotent_witness :
    (removeExpense 7 ⟨1, [(0, ⟨.str "u1", .str "d", .num 1, .str "t", .str "c",
        .str "ti", .str "USD", .undef⟩)]⟩).1 = ⟨200, "Expense deleted successfully"⟩ ∧
    ((∀ p ∈ [(0, (⟨.str "u1", .str "d", .num 1, .str "t", .str "c", .str "ti",
        .str "USD", .undef⟩ : ExpenseBody))], p.1 ≠ 7) →
      (removeExpense 7 ⟨1, [(0, ⟨.str "u1", .str "d", .num 1, .str "t", .str "c",
          .str "ti", .str "USD", .undef⟩)]⟩).2 =
        ⟨1, [(0, ⟨.str "u1", .str "d", .num 1, .str "t", .str "c", .str "ti",
          .str "USD", .undef⟩)]⟩) ∧
    (removeExpense 7 (removeExpense 7 ⟨1, [(0, ⟨.str "u1", .str "d", .num 1, .str "t",
        .str "c", .str "ti", .str "USD", .undef⟩)]⟩).2).1 =
      (removeExpense 7 ⟨1, [(0, ⟨.str "u1", .str "d", .num 1, .str "t", .str "c",
        .str "ti", .str "USD", .undef⟩)]⟩).1 :=
  removeExpense_idempotent 7 _

/-- C10: an add or edit body whose `amount` is the number 0, or any of
whose mandatory fields is the empty string, is rejected with the 400
validation error `"All required fields must be filled"` and no
persistence write, because presence is tested by JS truthiness. -/
theorem truthiness_rejects_zero_and_empty (id : Nat) (b : ExpenseBody)
    (st : LedgerState)
    (h : b.amount = .num 0 ∨ b.userId = .str "" ∨ b.dateTime = .str "" ∨
      b.amount = .str "" ∨ b.type = .str "" ∨ b.category = .str "" ∨
      b.title = .str "" ∨ b.currency = .str "") :
    addExpense b st = (⟨400, "All required fields must be filled"⟩, st) ∧
    editExpense id b st = (⟨400, "All required fields must be filled"⟩, st) := by
  have hreq : requiredPresent b = false := by
    rcases h with h | h | h | h | h | h | h | h <;> simp [requiredPresent, truthy, h]
  exact ⟨by simp [addExpense, hreq], by simp [editExpense, hreq]⟩

/-- C10 witness: a body with every field filled except `amount = 0` is
rejected by both add and edit, with the store unchanged. -/
theorem truthiness_rejects_zero_and_empty_witness :
    addExpense ⟨.str "u1", .str "2024-03-01T00:00:00Z", .num 0, .str "expense",
        .str "food", .str "lunch", .str "USD", .undef⟩ ⟨0, []⟩ =
      (⟨400, "All required fields must be filled"⟩, ⟨0, []⟩) ∧
    editExpense 3 ⟨.str "u1", .str "2024-03-01T00:00:00Z", .num 0, .str "expense",
        .str "food", .str "lunch", .str "USD", .undef⟩ ⟨0, []⟩ =
      (⟨400, "All required fields must be filled"⟩, ⟨0, []⟩) :=
  truthiness_rejects_zero_and_empty 3 _ _ (Or.inl rfl)

/-- C2: for a paginated query with limit `l ≥ 1` (default 10) and page
`p ≥ 1` (default 1, 1-indexed), the engine skips `(p-1)*l` records,
returns at most `l` items, reports the total matching count `T` and a
total page count equal to `ceil(T/l)` (characterised by
`T ≤ l*totalPages < T + l`), and on the last page returns
`T - l*(totalPages-1)` items when `T mod l ≠ 0`, else `l` items. -/
theorem queryEnginePage_pagination (userId : String) (month year : Option Nat)
    (p l : Nat) (sortLe : QExpense → QExpense → Bool) (store : List QExpense)
    (hp : 1 ≤ p) (hl : 1 ≤ l) :
    queryEnginePage userId month year none none sortLe store =
      queryEnginePage userId month year (some 1) (some 10) sortLe store ∧
    (queryEnginePage userId month year (some p) (some l) sortLe store).totalItems =
      (store.filter (matchesQuery (buildExpenseQuery userId month year))).length ∧
    (queryEnginePage userId month year (some p) (some l) sortLe store).items =
      (((store.filter (matchesQuery (buildExpenseQuery userId month year))).mergeSort
          sortLe).drop ((p - 1) * l)).take l ∧
    (queryEnginePage userId month year (some p) (some l) sortLe store).items.length
      ≤ l ∧
    ((store.filter (matchesQuery (buildExpenseQuery userId month year))).length ≤
        l * (queryEnginePage userId month year (some p) (some l) sortLe
          store).totalPages ∧
      l * (queryEnginePage userId month year (some p) (some l) sortLe
          store).totalPages <
        (store.filter (matchesQuery (buildExpenseQuery userId month year))).length
          + l) ∧
    (p = (queryEnginePage userId month year (some p) (some l) sortLe
        store).totalPages →
      (store.filter (matchesQuery (buildExpenseQuery userId month year))).length % l
        ≠ 0 →
      (queryEnginePage userId month year (some p) (some l) sortLe
          store).items.length =
        (store.filter (matchesQuery (buildExpenseQuery userId month year))).length -
          l * ((queryEnginePage userId month year (some p) (some l) sortLe
            store).totalPages - 1)) ∧
    (p = (queryEnginePage userId month year (some p) (some l) sortLe
        store).totalPages →
      (store.filter (matchesQuery (buildExpenseQuery userId month year))).length % l
        = 0 →
      (queryEnginePage userId month year (some p) (some l) sortLe
          store).items.length = l) := by
  have htp : (queryEnginePage userId month year (some p) (some l) sortLe
      store).totalPages =
      ((store.filter (matchesQuery (buildExpenseQuery userId month year))).length
        + l - 1) / l := by
    simp [queryEnginePage, List.length_mergeSort]
  have hlen : (queryEnginePage userId month year (some p) (some l) sortLe
      store).items.length =
      min l
        ((store.filter (matchesQuery (buildExpenseQuery userId month year))).length
          - (p - 1) * l) := by
    simp [queryEnginePage, List.length_take, List.length_drop,
      List.length_mergeSort]
  have hcb := ceilDiv_bounds
    (store.filter (matchesQuery (buildExpenseQuery userId month year))).length l hl
  refine ⟨rfl, by simp [queryEnginePage, List.length_mergeSort], rfl, ?_, ?_, ?_, ?_⟩
  · rw [hlen]
    exact Nat.min_le_left _ _
  · rw [htp]
    exact hcb
  · intro hpd _
    rw [htp] at hpd
    rw [hlen, htp, hpd]
    exact lastPage_length _ l _ (by omega) hcb.1 hcb.2
  · intro hpd hdvd
    rw [htp] at hpd
    rw [hlen, hpd]
    exact lastPage_length_dvd _ l _ (by omega) hcb.1 hcb.2 hdvd

/-- C2 witness: page 1 with limit 1 over a store whose single record
matches — the one last-page item is returned (`T = 1`, `T mod 1 = 0`). -/
theorem queryEnginePage_pagination_witness :
    (queryEnginePage "A" none none (some 1) (some 1) dateTimeDesc
        [⟨"A", 5, 1, "expense", "food", "lunch", "USD", ""⟩]).items.length = 1 := by
  have htp : (queryEnginePage "A" none none (some 1) (some 1) dateTimeDesc
      [⟨"A", 5, 1, "expense", "food", "lunch", "USD", ""⟩]).totalPages = 1 := by
    simp [queryEnginePage, List.length_mergeSort, matchesQuery, buildExpenseQuery]
  exact (queryEnginePage_pagination "A" none none 1 1 dateTimeDesc
      [⟨"A", 5, 1, "expense", "food", "lunch", "USD", ""⟩] (by decide)
      (by decide)).2.2.2.2.2.2 (by rw [htp]) (by omega)

/-- C3: the auth middleware rejects with 401 exactly when no bearer
token is extracted from the Authorization header, rejects with the
distinct 403 signal when a token is present but fails verification — in
particular a validly-signed token whose TTL has elapsed is rejected 403,
never 401 — and on successful verification binds the subject id and
proceeds to the downstream handler. -/
theorem authenticateToken_signals (hdr : Option String) (secret : String)
    (now : Nat) :
    (extractToken hdr = none ∨ extractToken hdr = some "" →
      authenticateToken hdr secret now = .reject 401) ∧
    (∀ s, extractToken hdr = some s → s ≠ "" → jwtVerifyStr s secret now = none →
      authenticateToken hdr secret now = .reject 403) ∧
    (∀ s tok, extractToken hdr = some s → decodeToken s = some tok →
      tok.sig = mac secret tok.id tok.exp → tok.exp ≤ now →
      authenticateToken hdr secret now = .reject 403) ∧
    (∀ s uid, extractToken hdr = some s → jwtVerifyStr s secret now = some uid →
      authenticateToken hdr secret now = .proceed uid) := by
  refine ⟨?_, ?_, ?_, ?_⟩
  · rintro (h | h) <;> simp [authenticateToken, h]
  · intro s hs hne hv
    simp [authenticateToken, hs, hne, hv]
  · intro s tok hs hd hsig hexp
    have hne : s ≠ "" := by
      rintro rfl
      rw [show decodeToken "" = none from by decide] at hd
      cases hd
    have hlt : ¬ now < tok.exp := by omega
    have hv : jwtVerifyStr s secret now = none := by
      simp [jwtVerifyStr, hd, jwtVerifyTok, hsig, hlt]
    simp [authenticateToken, hs, hne, hv]
  · intro s uid hs hv
    have hne : s ≠ "" := by
      rintro rfl
      rw [show jwtVerifyStr "" secret now = none from rfl] at hv
      cases hv
    simp [authenticateToken, hs, hne, hv]

/-- C3 witness: a header carrying a validly-signed token that expired at
second 5, verified at second 10, is rejected 403 — not 401. -/
theorem authenticateToken_signals_witness :
    extractToken (some "Bearer u7.5.k|u7|5") = some "u7.5.k|u7|5" ∧
    decodeToken "u7.5.k|u7|5" = some ⟨"u7", 5, "k|u7|5"⟩ ∧
    (⟨"u7", 5, "k|u7|5"⟩ : Token).sig = mac "k" "u7" 5 ∧
    (5 : Nat) ≤ 10 ∧
    authenticateToken (some "Bearer u7.5.k|u7|5") "k" 10 = .reject 403 :=
  ⟨by decide, by decide, by decide, by decide,
    (authenticateToken_signals (some "Bearer u7.5.k|u7|5") "k" 10).2.2.1
      "u7.5.k|u7|5" ⟨"u7", 5, "k|u7|5"⟩ (by decide) (by decide) (by decide)
      (by decide)⟩

/-- C5: a signup with non-empty email and password over a store with no
duplicate of that email and a fresh next id hashes the password,
persists the new user, answers 201 with a token, and the token's
subject, once verified, resolves to a user record whose email matches
the submitted email. -/
theorem signup_token_resolves_email (email password secret : String) (now : Nat)
    (st : UsersState) (he : email ≠ "") (hp : password ≠ "")
    (hfresh : ∀ u ∈ st.users, u.id ≠ toString st.nextId)
    (hdup : ∀ u ∈ st.users, u.email ≠ email) :
    ∃ tok : Token, ∃ st2 : UsersState,
      signup email password secret now st = (⟨201, some tok⟩, st2) ∧
      ∃ subj : String, jwtVerifyTok tok secret now = some subj ∧
        ∃ u : UserRec, findUserById subj st2 = some u ∧ u.email = email ∧
          u.password = bcryptHash 10 password := by
  have hany : (st.users.any fun v => v.email == email) = false := by
    rw [List.any_eq_false]
    intro u hu
    simpa using hdup u hu
  refine ⟨generateToken (toString st.nextId) secret now,
    ⟨st.nextId + 1, st.users ++ [⟨toString st.nextId, email, bcryptHash 10 password⟩]⟩,
    by simp [signup, usersInsertOne, he, hp, hany], toString st.nextId, ?_, ?_⟩
  · have hlt : now < now + jwtTtlSeconds := by simp [jwtTtlSeconds]
    simp [jwtVerifyTok, generateToken, hlt]
  · refine ⟨⟨toString st.nextId, email, bcryptHash 10 password⟩, ?_, rfl, rfl⟩
    unfold findUserById
    rw [List.find?_append]
    have h1 : (st.users.find? fun u => u.id == toString st.nextId) = none := by
      rw [List.find?_eq_none]
      intro u hu
      simpa using hfresh u hu
    simp [h1]

/-- C5 witness: signing up `a@x.com` on an empty store issues a token
that verifies back to a stored user with that email and the bcrypt hash
of the submitted password. -/
theorem signup_token_resolves_email_witness :
    ∃ tok : Token, ∃ st2 : UsersState,
      signup "a@x.com" "pw123456" "topsecret" 0 ⟨0, []⟩ = (⟨201, some tok⟩, st2) ∧
      ∃ subj : String, jwtVerifyTok tok "topsecret" 0 = some subj ∧
        ∃ u : UserRec, findUserById subj st2 = some u ∧ u.email = "a@x.com" ∧
          u.password = bcryptHash 10 "pw123456" :=
  signup_token_resolves_email "a@x.com" "pw123456" "topsecret" 0 ⟨0, []⟩
    (by decide) (by decide) (by simp) (by simp)

/-- C8 counterexample: signing up an email that duplicates the stored
user's email is answered with the generic 500 internal error, not a
409-equivalent client-attributable outcome. -/
theorem signup_duplicate_counterexample :
    (signup "a@x.com" "pw123456" "topsecret" 0
        ⟨1, [⟨"0", "a@x.com", bcryptHash 10 "oldpw"⟩]⟩).1.status = 500 ∧
    (signup "a@x.com" "pw123456" "topsecret" 0
        ⟨1, [⟨"0", "a@x.com", bcryptHash 10 "oldpw"⟩]⟩).1.status ≠ 409 := by
  decide

/-- C8 (amended): the duplicate-unique-field failure from the
persistence layer is caught — the handler answers rather than crashing,
with no token and the store unchanged — but it is surfaced as the
generic 500 internal error, not mapped to a 409-equivalent
client-attributable outcome. -/
theorem signup_duplicate_maps_to_500 (email password secret : String) (now : Nat)
    (st : UsersState) (he : email ≠ "") (hp : password ≠ "")
    (hdup : ∃ u ∈ st.users, u.email = email) :
    (signup email password secret now st).1 = ⟨500, none⟩ ∧
    (signup email password secret now st).2 = st := by
  obtain ⟨u, hu, hue⟩ := hdup
  have hany : (st.users.any fun v => v.email == email) = true :=
    List.any_eq_true.mpr ⟨u, hu, by simp [hue]⟩
  simp [signup, usersInsertOne, he, hp, hany]

/-- C8 witness: the duplicate signup of the counterexample input indeed
answers ⟨500, no token⟩ and leaves the store unchanged. -/
theorem signup_duplicate_maps_to_500_witness :
    (signup "a@x.com" "pw123456" "topsecret" 0
        ⟨1, [⟨"0", "a@x.com", bcryptHash 10 "oldpw"⟩]⟩).1 = ⟨500, none⟩ ∧
    (signup "a@x.com" "pw123456" "topsecret" 0
        ⟨1, [⟨"0", "a@x.com", bcryptHash 10 "oldpw"⟩]⟩).2 =
      ⟨1, [⟨"0", "a@x.com", bcryptHash 10 "oldpw"⟩]⟩ :=
  signup_duplicate_maps_to_500 "a@x.com" "pw123456" "topsecret" 0
    ⟨1, [⟨"0", "a@x.com", bcryptHash 10 "oldpw"⟩]⟩ (by decide) (by decide)
    ⟨⟨"0", "a@x.com", bcryptHash 10 "oldpw"⟩, by simp, rfl⟩

end ExpenseApi
